import Mathlib

/-!
Shallow embedding of the GdeDoctorBot core (location-aware doctor search
assistant) and proofs about the claims of its specification.

The Python sources embedded here:
  - bot/app/services/ai_assistant.py   (AIAssistant: filter_hospitals_by_location,
    _extract_location_info, match_address)
  - bot/app/services/standalone_service.py (StandaloneDataService.get_hospitals)
  - bot/app/handlers/ai_search.py      (forward AI filter step, back_to_ai_hospitals)
  - bot/app/handlers/standalone_review.py (process_review)
  - bot/app/handlers/standalone_search.py (show_doctor_card)
  - bot/app/constants.py               (Limits)

Python strings are modelled as Lean `String`; the string primitives the code
uses (`str.lower`, the `in` substring test, `str.split()`, `str.strip`) are
given explicit executable definitions over `String.data` below.  The GigaChat
oracle call and the Yandex geo calls are modelled as `Except Unit _`
parameters: `Except.ok` is a reply, `Except.error` is any raised exception
(transport/timeout/parse failure).
-/

namespace GdeDoctor

/-! ### Python string primitives -/

/-- Python `str.lower()` restricted to the alphabets the code manipulates:
ASCII `A`-`Z` and Cyrillic `А`-`Я` map down by 0x20, `Ё` maps to `ё`;
every other character is unchanged. -/
def pyLowerChar (c : Char) : Char :=
  let n := c.toNat
  if 65 ≤ n ∧ n ≤ 90 then Char.ofNat (n + 32)
  else if 1040 ≤ n ∧ n ≤ 1071 then Char.ofNat (n + 32)
  else if n = 1025 then Char.ofNat 1105
  else c

/-- Python `str.lower()` on a whole string. -/
def pyLower (s : String) : String :=
  String.mk (s.data.map pyLowerChar)

/-- Python's `needle in hay` substring test, on character lists. -/
def subOccursL (needle : List Char) : List Char → Bool
  | [] => needle.isEmpty
  | c :: t => needle.isPrefixOf (c :: t) || subOccursL needle t

/-- Python's `needle in hay` substring test on strings. -/
def subOccurs (needle hay : String) : Bool :=
  subOccursL needle.data hay.data

/-- Helper for `pySplit`: accumulates the current word (reversed). -/
def pySplitAux : List Char → List Char → List String
  | [], [] => []
  | [], acc => [String.mk acc.reverse]
  | c :: t, acc =>
    if c.isWhitespace then
      match acc with
      | [] => pySplitAux t []
      | _ => String.mk acc.reverse :: pySplitAux t []
    else pySplitAux t (c :: acc)

/-- Python `str.split()` with no argument: splits on whitespace runs and
discards empty fields. -/
def pySplit (s : String) : List String :=
  pySplitAux s.data []

/-- Python `str.strip()`: removes leading and trailing whitespace. -/
def pyStrip (s : String) : String :=
  String.mk (((s.data.dropWhile Char.isWhitespace).reverse.dropWhile
    Char.isWhitespace).reverse)

/-- Helper for `findNumbers`: `acc` is the digit run currently being read
(as an accumulated value), mirroring a left-to-right regex scan. -/
def findNumbersAux : List Char → Option Nat → List Nat
  | [], none => []
  | [], some n => [n]
  | c :: t, acc =>
    if c.isDigit then
      findNumbersAux t (some ((acc.getD 0) * 10 + (c.toNat - 48)))
    else
      match acc with
      | none => findNumbersAux t none
      | some n => n :: findNumbersAux t none

/-- Python `re.findall(r'\d+', s)` followed by `int(...)` on each match:
the values of the maximal digit runs of `s`, in order of appearance. -/
def findNumbers (s : String) : List Nat :=
  findNumbersAux s.data none

/-- Python list indexing `hs[i]` with `i : Int`: negative indices count from
the end; an index out of range raises (modelled as `none`). -/
def pyGet {α : Type} (hs : List α) (i : Int) : Option α :=
  let j : Int := if i < 0 then (hs.length : Int) + i else i
  if h : 0 ≤ j ∧ j < (hs.length : Int) then
    some (hs.get ⟨j.toNat, by omega⟩)
  else none

/-! ### Location Extractor (`AIAssistant._extract_location_info`) -/

/-- The `LocationSignal` record built by `_extract_location_info`.  The
`address` field is declared in the source dict literal but never assigned. -/
structure LocationInfo where
  has_location : Bool
  address : Option String
  district : Option String
  near_center : Bool
  preferences : List String
deriving DecidableEq, Repr

/-- The list `location_keywords` from `_extract_location_info`. -/
def locationKeywords : List String :=
  ["улица", "ул.", "проспект", "пр.", "переулок", "пер.",
   "район", "рядом", "около", "возле", "недалеко", "близко",
   "центр", "центре", "окраина"]

/-- The list `districts` (districts of Kaluga) from `_extract_location_info`. -/
def districtNames : List String :=
  ["ленинский", "московский", "октябрьский", "центр", "центральный"]

/-- Embedding of `AIAssistant._extract_location_info`: keyword-based location signal
extraction.  The district loop carries no break, so each later match
overwrites the field. -/
def extract_location_info (user_query : String) : LocationInfo :=
  let query_lower := pyLower user_query
  let info0 : LocationInfo :=
    ⟨false, none, none, false, []⟩
  let info1 :=
    if locationKeywords.any (fun k => subOccurs k query_lower) then
      { info0 with has_location := true }
    else info0
  let info2 := districtNames.foldl
    (fun st d =>
      if subOccurs d query_lower then
        { st with district := some d, has_location := true }
      else st)
    info1
  let info3 :=
    if subOccurs "центр" query_lower then
      { info2 with near_center := true, has_location := true }
    else info2
  let p1 :=
    if ["хороший", "лучший", "опытный", "проверенный"].any
        (fun w => subOccurs w query_lower) then
      info3.preferences ++ ["quality"]
    else info3.preferences
  let p2 :=
    if ["близко", "рядом", "недалеко", "около"].any
        (fun w => subOccurs w query_lower) then
      p1 ++ ["nearby"]
    else p1
  let p3 :=
    if ["отзыв", "рейтинг", "рекомендуют"].any
        (fun w => subOccurs w query_lower) then
      p2 ++ ["reviews"]
    else p2
  { info3 with preferences := p3 }

/-! ### Deterministic address matcher (`AIAssistant.match_address`) -/

/-- The list `center_keywords` from `match_address`. -/
def centerKeywords : List String :=
  ["центр", "ленина", "кирова", "театральная", "площадь", "октябрьская"]

/-- The stop-word list filtered out of the query in `match_address`. -/
def matchStopWords : List String :=
  ["улица", "улице", "проспект", "переулок", "район", "рядом", "около",
   "возле", "недалеко", "близко", "нужен", "ищу", "найти"]

/-- Embedding of `AIAssistant.match_address`: deterministic keyword matching of a
hospital address against a location query. -/
def match_address (hospital_address : String) (location_query : String) : Bool :=
  let address_lower := pyLower hospital_address
  let query_lower := pyLower location_query
  let location_info := extract_location_info location_query
  if (match location_info.district with
      | some d => subOccurs d address_lower
      | none => false) then
    true
  else if location_info.near_center &&
      centerKeywords.any (fun k => subOccurs k address_lower) then
    true
  else
    let query_words := (pySplit query_lower).filter
      (fun w => w.length > 3 && !(matchStopWords.contains w))
    (query_words.filter (fun w => subOccurs w address_lower)).length > 0

/-! ### AI hospital filter (`AIAssistant.filter_hospitals_by_location`) -/

/-- A hospital record as handled by the AI-search flow: a dict with an
integer `id`, a `name` and an optional `address`. -/
structure Hospital where
  id : Nat
  name : String
  address : Option String
deriving DecidableEq, Repr

/-- One line of the numbered address list sent in the oracle prompt:
`"{i+1}. {name}: {address or fallback}"`. -/
def addressLine (i : Nat) (h : Hospital) : String :=
  let num := toString (i + 1)
  let addr := h.address.getD "Адрес не указан"
  num ++ ". " ++ h.name ++ ": " ++ addr

/-- The string `addresses_list` from `filter_hospitals_by_location`: the prompt
enumerates only the first 50 hospitals (`hospitals[:50]`), 1-based. -/
def addresses_list (hospitals : List Hospital) : String :=
  String.intercalate "\n"
    (((hospitals.take 50).enum).map (fun p => addressLine p.1 p.2))

/-- The number-parsing step: `[int(n) - 1 for n in numbers if int(n) <=
len(hospitals)]`.  There is no lower bound, so `0` survives as `-1`. -/
def parse_selected_indices (ai_response : String) (n : Nat) : List Int :=
  (findNumbers ai_response).filterMap
    (fun k => if k ≤ n then some ((k : Int) - 1) else none)

/-- Look up every index in order; `none` as soon as one lookup fails
(a Python `IndexError`). -/
def pyGetAll (hs : List Hospital) : List Int → Option (List Hospital)
  | [] => some []
  | i :: t =>
    match pyGet hs i, pyGetAll hs t with
    | some x, some xs => some (x :: xs)
    | _, _ => none

/-- The selection step: `[hospitals[i] for i in selected_indices if i <
len(hospitals)]`.  A Python index out of range would raise `IndexError`
(caught by the surrounding `except`); that is the `none` result here. -/
def select_hospitals (hospitals : List Hospital) (idxs : List Int) :
    Option (List Hospital) :=
  pyGetAll hospitals (idxs.filter (fun i => i < (hospitals.length : Int)))

/-- The city-token post-filter predicate: `h.get('address')` is truthy and
its lowercase form contains `калуга` or `kaluga`. -/
def has_kaluga_address (h : Hospital) : Bool :=
  match h.address with
  | some a =>
    !(a = "") && (subOccurs "калуга" (pyLower a) || subOccurs "kaluga" (pyLower a))
  | none => false

/-- The `except` fallback of `filter_hospitals_by_location`: plain keyword
matching of each address against the query. -/
def fallback_filter (hospitals : List Hospital) (user_query : String) :
    List Hospital :=
  hospitals.filter (fun h => match_address (h.address.getD "") user_query)

/-- Embedding of `AIAssistant.filter_hospitals_by_location`.  The oracle call is the
`oracle` parameter: `Except.ok r` is a reply with content `r`,
`Except.error ()` is any exception raised by the call (transport, timeout,
parse).  An `IndexError` while selecting is caught by the same `except`
and also takes the fallback path. -/
def filter_hospitals_by_location (user_query : String)
    (hospitals : List Hospital) (oracle : Except Unit String) :
    List Hospital :=
  if hospitals.isEmpty then []
  else
    let location_info := extract_location_info user_query
    if !location_info.has_location then hospitals
    else
      match oracle with
      | Except.error _ => fallback_filter hospitals user_query
      | Except.ok response =>
        let ai_response := pyStrip response
        let selected_indices := parse_selected_indices ai_response hospitals.length
        if selected_indices.isEmpty then hospitals
        else
          match select_hospitals hospitals selected_indices with
          | none => fallback_filter hospitals user_query
          | some filtered =>
            let filtered_kaluga := filtered.filter has_kaluga_address
            if !filtered_kaluga.isEmpty then filtered_kaluga
            else filtered

/-! ### Catalog service (`StandaloneDataService.get_hospitals`) -/

/-- A SQLite value as it appears in the dicts the service builds. -/
inductive SqlValue where
  | vint (n : Nat)
  | vtext (s : String)
  | vnull
deriving DecidableEq, Repr

/-- A Python dict built by the service: an association list preserving the
order in which the dict literal lists its keys. -/
abbrev Record := List (String × SqlValue)

/-- A row of the `hospitals` table. -/
structure HospitalRow where
  id : Nat
  name : String
  address : Option String
deriving DecidableEq, Repr

/-- A row of the `doctor_work_placements` table. -/
structure PlacementRow where
  doctor_id : Nat
  hospital_id : Nat
  specialty_id : Nat
deriving DecidableEq, Repr

/-- The slice of the SQLite database `get_hospitals` reads. -/
structure Database where
  hospitals : List HospitalRow
  placements : List PlacementRow
deriving Repr

/-- Insert an `(id, name)` pair into a name-sorted list (the `ORDER BY
h.name` of the SQL query; SQLite compares TEXT bytewise, modelled by
`String` order). -/
def insertByName (x : Nat × String) : List (Nat × String) → List (Nat × String)
  | [] => [x]
  | y :: ys => if x.2 ≤ y.2 then x :: y :: ys else y :: insertByName x ys

/-- Sort `(id, name)` pairs by name (`ORDER BY h.name`). -/
def sortByName : List (Nat × String) → List (Nat × String)
  | [] => []
  | x :: xs => insertByName x (sortByName xs)

/-- The `SELECT DISTINCT h.id, h.name ... JOIN doctor_work_placements ...
WHERE dwp.specialty_id = ?` query, before ordering: each hospital with at
least one placement of the specialty, one row per distinct `(id, name)`. -/
def specialtyJoinRows (db : Database) (s : Nat) : List (Nat × String) :=
  ((db.hospitals.filter
    (fun h => db.placements.any
      (fun p => p.hospital_id == h.id && p.specialty_id == s))).map
    (fun (h : HospitalRow) => (h.id, h.name))).dedup

/-- Result shape `{"items": ..., "total": ...}` of `get_hospitals`,
restricted to the fields the claims touch. -/
structure HospitalsPage where
  items : List Record
  total : Nat

/-- Embedding of `StandaloneDataService.get_hospitals`.  Here `specialty_id` follows Python
truthiness: `None` and `0` both take the unfiltered branch.  Each item is
the dict literal `{"id": row[0], "name": row[1]}`. -/
def get_hospitals (db : Database) (specialty_id : Option Nat)
    (skip : Nat := 0) (limit : Nat := 10) : HospitalsPage :=
  let rows :=
    match specialty_id with
    | some s =>
      if s ≠ 0 then sortByName (specialtyJoinRows db s)
      else sortByName (db.hospitals.map (fun (h : HospitalRow) => (h.id, h.name)))
    | none => sortByName (db.hospitals.map (fun (h : HospitalRow) => (h.id, h.name)))
  let total :=
    match specialty_id with
    | some s =>
      if s ≠ 0 then (specialtyJoinRows db s).length
      else db.hospitals.length
    | none => db.hospitals.length
  let page := (rows.drop skip).take limit
  { items := page.map (fun (r : Nat × String) => [("id", SqlValue.vint r.1), ("name", SqlValue.vtext r.2)])
    total := total }

/-! ### Back navigation (`ai_search.back_to_ai_hospitals`) -/

/-- The forward AI-filter step of `process_ai_query` persists
`filtered_hospitals = [h['id'] for h in hospitals]` — the ids of the
displayed list, in display order. -/
def persisted_hospital_ids (displayed : List Hospital) : List Nat :=
  displayed.map (fun h => h.id)

/-- The list-reconstruction step of `back_to_ai_hospitals`: re-fetches the
full hospital set and keeps those whose id is among the persisted ids
(`[h for h in all_hospitals if h['id'] in filtered_hospital_ids]`); an
empty persisted list means no filter. The oracle is not an input: back
navigation never calls it. -/
def back_to_ai_hospitals_restore (all_hospitals : List Hospital)
    (filtered_hospital_ids : List Nat) : List Hospital :=
  if filtered_hospital_ids.isEmpty then all_hospitals
  else all_hospitals.filter (fun h => filtered_hospital_ids.contains h.id)

/-! ### Review handler (`standalone_review.process_review`, `constants.Limits`) -/

/-- The constant `Limits.REVIEW_MIN_LENGTH` from `constants.py`. -/
def REVIEW_MIN_LENGTH : Nat := 10

/-- The constant `Limits.REVIEW_MAX_LENGTH` from `constants.py`. -/
def REVIEW_MAX_LENGTH : Nat := 2000

/-- The FSM situation after `process_review` handles one message:
the review state kept (`return` without touching the state), the state
set to `None` with data kept, or the context fully cleared. -/
inductive ReviewFsm where
  | waiting_for_review
  | stateCleared
  | dataKept
deriving DecidableEq, Repr

/-- The session fields `process_review` reads. -/
structure ReviewContext where
  doctor_id : Option Nat
  hospital_id : Option Nat
deriving DecidableEq, Repr

/-- Outcome of one `process_review` step: the payload passed to
`create_review` (or `none` when the write is never invoked) and the
resulting FSM situation. -/
structure ReviewOutcome where
  created : Option (Nat × Nat × String × String)
  fsm : ReviewFsm
deriving DecidableEq, Repr

/-- Embedding of `standalone_review.process_review`.  Here `review_text = message.text.strip()`
is validated against `Limits`; on a length violation the handler replies
and returns, leaving the FSM in `waiting_for_review` and never calling
`create_review`.  `serviceOk` models the data-service lookup, and
`createOk` models whether `create_review` raises. -/
def process_review (text : String) (ctx : ReviewContext) (user_name : String)
    (serviceOk : Bool) (createOk : Bool) : ReviewOutcome :=
  let review_text := pyStrip text
  if review_text.length < REVIEW_MIN_LENGTH then
    ⟨none, ReviewFsm.waiting_for_review⟩
  else if review_text.length > REVIEW_MAX_LENGTH then
    ⟨none, ReviewFsm.waiting_for_review⟩
  else if !serviceOk then
    ⟨none, ReviewFsm.stateCleared⟩
  else
    match ctx.doctor_id, ctx.hospital_id with
    | some d, some h =>
      if d = 0 || h = 0 then ⟨none, ReviewFsm.stateCleared⟩
      else if createOk then
        ⟨some (d, h, user_name, review_text), ReviewFsm.dataKept⟩
      else
        ⟨some (d, h, user_name, review_text), ReviewFsm.stateCleared⟩
    | _, _ => ⟨none, ReviewFsm.stateCleared⟩

/-! ### Doctor card (`standalone_search.show_doctor_card`) -/

/-- Geographic coordinates returned by `geocode`. -/
structure Coords where
  lon : Int
  lat : Int
deriving DecidableEq, Repr

/-- What the handler finally sends to the chat. -/
inductive CardAction where
  | answerPhoto (caption : String)
  | answerText (text : String)
  | alertError (text : String)
deriving DecidableEq, Repr

/-- Observable outcome of `show_doctor_card`: whether the geocode call and
the static-map call were attempted, and what was rendered. -/
structure CardResult where
  geocode_attempted : Bool
  map_attempted : Bool
  action : CardAction
deriving DecidableEq, Repr

/-- The doctor dict produced by `get_doctor`. -/
structure Doctor where
  name : String
  hospital_name : String
  specialty_name : String
  address : Option String
deriving DecidableEq, Repr

/-- Truthy real address: `doctor.get("address")` is a non-empty string
different from the `"Адрес не указан"` placeholder. -/
def has_real_address (d : Doctor) : Bool :=
  match d.address with
  | some a => !(a = "") && !(a = "Адрес не указан")
  | none => false

/-- The card text built by `show_doctor_card` (name, hospital, specialty,
and the address line only when a real address is present). -/
def doctor_card_text (d : Doctor) : String :=
  let base := "👨‍⚕️ <b>" ++ d.name ++ "</b>\n\n" ++
    "🏥 <b>Больница:</b> " ++ d.hospital_name ++ "\n" ++
    "🩺 <b>Специальность:</b> " ++ d.specialty_name ++ "\n"
  if has_real_address d then
    base ++ "📍 <b>Адрес:</b> " ++ d.address.getD "" ++ "\n"
  else base

/-- Embedding of `standalone_search.show_doctor_card`.  Here `doctorRes` models
`get_doctor` (its failure is caught by the outer `except`, which shows an
alert).  `geo` and `mapFetch` model the two Yandex calls; each sits in its
own inner `try` whose `except` only logs, so their failures are
swallowed. -/
def show_doctor_card (yandex_api_key : String) (doctorRes : Except Unit Doctor)
    (geo : Except Unit Coords) (mapFetch : Except Unit String) : CardResult :=
  match doctorRes with
  | Except.error _ =>
    ⟨false, false, CardAction.alertError "Ошибка при загрузке данных"⟩
  | Except.ok doctor =>
    let tryGeo := !(yandex_api_key = "") && has_real_address doctor
    let coords : Option Coords :=
      if tryGeo then
        match geo with
        | Except.ok c => some c
        | Except.error _ => none
      else none
    let tryMap := coords.isSome
    let map_photo : Option String :=
      if tryMap then
        match mapFetch with
        | Except.ok m => some m
        | Except.error _ => none
      else none
    let message := doctor_card_text doctor
    match map_photo with
    | some _ => ⟨tryGeo, tryMap, CardAction.answerPhoto message⟩
    | none => ⟨tryGeo, tryMap, CardAction.answerText message⟩

/-! ### Concrete fixtures used by witnesses and counterexamples -/

/-- Fixture: a Kaluga hospital on Lenina street. -/
def hospA : Hospital := ⟨1, "Больница А", some "Калуга, ул. Ленина 1"⟩

/-- Fixture: a Kaluga hospital on Kirova street. -/
def hospB : Hospital := ⟨2, "Больница Б", some "Калуга, ул. Кирова 2"⟩

/-- Fixture: a Moscow hospital whose street name matches Lenina. -/
def hospM : Hospital := ⟨3, "Москва-Мед", some "Москва, ул. Ленина 9"⟩

/-- Fixture: a 51-hospital list (50 copies of `hospA`, then `hospB`). -/
def hosp51 : List Hospital := List.replicate 50 hospA ++ [hospB]

/-- Fixture: a query carrying a location signal (`улица` is a keyword). -/
def queryLenina : String := "улица ленина"

/-- Fixture: a two-hospital, three-placement database slice. -/
def dbFix : Database :=
  ⟨[⟨1, "А", some "Калуга"⟩, ⟨2, "Б", none⟩], [⟨7, 1, 3⟩, ⟨8, 1, 3⟩, ⟨9, 2, 4⟩]⟩

/-- Fixture: a doctor record with a real address. -/
def docFix : Doctor := ⟨"Иванов И.И.", "Больница А", "Терапевт", some "Калуга, ул. Ленина 1"⟩

end GdeDoctor

namespace GdeDoctor

/-! ### Helper lemmas -/

/-- Membership in `insertByName` is membership in the inserted pair or the
original list. -/
theorem mem_insertByName (x a : Nat × String) (l : List (Nat × String)) :
    a ∈ insertByName x l ↔ a = x ∨ a ∈ l := by
  induction l with
  | nil => simp [insertByName]
  | cons y ys ih =>
    by_cases h : x.2 ≤ y.2
    · simp [insertByName, h]
    · simp [insertByName, h, ih]
      tauto

/-- Sorting with `sortByName` preserves membership. -/
theorem mem_sortByName (a : Nat × String) (l : List (Nat × String)) :
    a ∈ sortByName l ↔ a ∈ l := by
  induction l with
  | nil => simp [sortByName]
  | cons y ys ih => simp [sortByName, mem_insertByName, ih]

/-- Inserting with `insertByName` adds exactly one element. -/
theorem length_insertByName (x : Nat × String) (l : List (Nat × String)) :
    (insertByName x l).length = l.length + 1 := by
  induction l with
  | nil => simp [insertByName]
  | cons y ys ih =>
    by_cases h : x.2 ≤ y.2
    · simp [insertByName, h]
    · simp [insertByName, h, ih]

/-- Sorting with `sortByName` preserves length. -/
theorem length_sortByName (l : List (Nat × String)) :
    (sortByName l).length = l.length := by
  induction l with
  | nil => rfl
  | cons y ys ih => simp [sortByName, length_insertByName, ih]

/-- A left fold that overwrites an optional accumulator at every predicate
hit computes the last hit: the first hit of the reversed list. -/
theorem foldl_overwrite_eq_find_reverse (p : String → Bool) (ds : List String)
    (a : Option String) :
    ds.foldl (fun acc d => if p d then some d else acc) a
      = (ds.reverse.find? p).or a := by
  induction ds generalizing a with
  | nil => simp
  | cons d ds ih =>
    rw [List.foldl_cons, ih, List.reverse_cons, List.find?_append]
    cases hfind : ds.reverse.find? p <;> cases hpd : p d <;>
      simp [List.find?, hpd, Option.or]

/-- The district field of the record fold inside `_extract_location_info`
equals the plain optional fold over the district list. -/
theorem district_of_foldl (ql : String) (ds : List String) (st : LocationInfo) :
    (ds.foldl
      (fun st d =>
        if subOccurs d ql then { st with district := some d, has_location := true }
        else st) st).district
      = ds.foldl (fun acc d => if subOccurs d ql then some d else acc) st.district := by
  induction ds generalizing st with
  | nil => rfl
  | cons d ds ih =>
    by_cases h : subOccurs d ql = true
    · simp [h, ih]
    · simp [h, ih]

/-! ### Claim C1 -/

/-- Claim C1 (code bug): the spec says every reply integer outside
`[1, N]`, including `0`, is discarded by the number-parsing step of
`filter_hospitals_by_location`.  The code checks only the upper bound, so
a reply of `0` becomes Python index `-1` and selects the LAST hospital of
the list instead of being discarded; an integer above `N` (here `3` with
`N = 2`) is discarded as specified, leaving no valid index, so the full
list is returned. -/
theorem c1_zero_index_selects_last_hospital :
    filter_hospitals_by_location queryLenina [hospA, hospB] (Except.ok "0")
      = [hospB]
    ∧ filter_hospitals_by_location queryLenina [hospA, hospB] (Except.ok "3")
      = [hospA, hospB] := by decide

/-! ### Claim C5 -/

/-- Claim C5, counterexample: in a query mentioning both the first district
`ленинский` and the second district `московский`, `_extract_location_info`
sets `district` to `московский` — the LAST matching entry of the fixed
district list — not the first match as the claim states. -/
theorem c5_counterexample :
    (extract_location_info "ленинский московский").district = some "московский"
    ∧ (extract_location_info "ленинский московский").district ≠ some "ленинский" := by
  decide

/-- Claim C5, amended: for every input text, the `district` field equals
the LAST entry of the fixed district list occurring in the lowercased
query (= the first match of the reversed list); the loop has no break, so
each later match overwrites the field. -/
theorem c5_district_last_match_wins (q : String) :
    (extract_location_info q).district
      = (districtNames.reverse.find? (fun d => subOccurs d (pyLower q))) := by
  unfold extract_location_info
  by_cases hkw : locationKeywords.any (fun k => subOccurs k (pyLower q)) = true <;>
    by_cases hc : subOccurs "центр" (pyLower q) = true <;>
    simp [hkw, hc, district_of_foldl, foldl_overwrite_eq_find_reverse]

/-! ### Claim C10 -/

/-- Claim C10: `filter_hospitals_by_location` returns `[]` on an empty
hospital list for EVERY query and oracle outcome (the emptiness guard
fires before location extraction), and is the identity on the hospital
list — for every oracle outcome, hence without consulting the oracle —
whenever the Location Extractor reports no location in the query. -/
theorem c10_empty_and_no_location_identity (q q' : String) (hs : List Hospital)
    (o o' : Except Unit String)
    (hloc : (extract_location_info q).has_location = false) :
    filter_hospitals_by_location q' [] o' = []
    ∧ filter_hospitals_by_location q hs o = hs := by
  constructor
  · simp [filter_hospitals_by_location]
  · cases hs with
    | nil => simp [filter_hospitals_by_location]
    | cons a t => simp [filter_hospitals_by_location, hloc]

/-- Claim C10, witness: the location-bearing query `улица ленина` on the
empty list still yields `[]`, while the location-free query `привет`
leaves a concrete non-empty list unchanged for an arbitrary oracle
reply. -/
theorem c10_witness :
    (extract_location_info "привет").has_location = false
    ∧ (extract_location_info queryLenina).has_location = true
    ∧ filter_hospitals_by_location queryLenina [] (Except.ok "1") = []
    ∧ filter_hospitals_by_location "привет" [hospA, hospB] (Except.ok "1")
      = [hospA, hospB] :=
  ⟨by decide, by decide,
   (c10_empty_and_no_location_identity "привет" queryLenina [hospA, hospB]
      (Except.ok "1") (Except.ok "1") (by decide)).1,
   (c10_empty_and_no_location_identity "привет" queryLenina [hospA, hospB]
      (Except.ok "1") (Except.ok "1") (by decide)).2⟩

/-! ### Claim C6 -/

/-- Claim C6: when the oracle call raises (transport/timeout/parse), the
exception is caught and the result of `filter_hospitals_by_location` is
exactly the subset of the input hospitals whose address matches the query
under the deterministic keyword matcher `match_address` (with the missing
address defaulting to the empty string). -/
theorem c6_oracle_failure_falls_back_to_keyword_match (q : String)
    (hs : List Hospital) (hne : hs ≠ [])
    (hloc : (extract_location_info q).has_location = true) :
    filter_hospitals_by_location q hs (Except.error ())
      = hs.filter (fun h => match_address (h.address.getD "") q) := by
  cases hs with
  | nil => exact absurd rfl hne
  | cons a t =>
    simp [filter_hospitals_by_location, hloc, fallback_filter]

/-- Claim C6, witness: at a concrete two-hospital list and the query
`улица ленина`, an oracle failure yields exactly the `match_address`
subset (here only `hospA`, whose address contains `ленина`). -/
theorem c6_witness :
    ([hospA, hospB] : List Hospital) ≠ []
    ∧ (extract_location_info queryLenina).has_location = true
    ∧ filter_hospitals_by_location queryLenina [hospA, hospB] (Except.error ())
        = List.filter (fun h => match_address (h.address.getD "") queryLenina)
            [hospA, hospB] :=
  ⟨by decide, by decide,
   c6_oracle_failure_falls_back_to_keyword_match queryLenina [hospA, hospB]
     (by decide) (by decide)⟩

/-! ### Claim C2 -/

/-- Claim C2, counterexample: a single selected hospital whose address is
in Moscow (no `калуга`/`kaluga` token) is returned as the filtered result:
when the city post-filter empties the selection, the code falls back to
returning the unvalidated selection ("AI knows better"), so the claimed
mandatory post-filter does not hold. -/
theorem c2_counterexample :
    filter_hospitals_by_location queryLenina [hospM] (Except.ok "1") = [hospM]
    ∧ has_kaluga_address hospM = false := by decide

/-- Claim C2, amended: the city post-filter is applied only when at least
one selected hospital carries the city token: in that case the result is
exactly the token-bearing subset of the selection and every returned
hospital has the token; when no selected hospital has the token the full
selection is returned unvalidated. -/
theorem c2_kaluga_postfilter_when_nonempty (q : String) (hs : List Hospital)
    (r : String) (filtered : List Hospital)
    (hne : hs ≠ [])
    (hloc : (extract_location_info q).has_location = true)
    (hsel : parse_selected_indices (pyStrip r) hs.length ≠ [])
    (hfil : select_hospitals hs (parse_selected_indices (pyStrip r) hs.length)
      = some filtered)
    (hkal : filtered.filter has_kaluga_address ≠ []) :
    filter_hospitals_by_location q hs (Except.ok r)
      = filtered.filter has_kaluga_address
    ∧ ∀ h ∈ filter_hospitals_by_location q hs (Except.ok r),
        has_kaluga_address h = true := by
  have heq : filter_hospitals_by_location q hs (Except.ok r)
      = filtered.filter has_kaluga_address := by
    cases hs with
    | nil => exact absurd rfl hne
    | cons a t =>
      simp only [filter_hospitals_by_location]
      rw [hfil]
      simp_all
  refine ⟨heq, ?_⟩
  intro h hm
  rw [heq] at hm
  exact (List.mem_filter.mp hm).2

/-- Claim C2, witness: with hospitals `[hospA, hospM]` and oracle reply
`1,2`, the Kaluga subset of the selection is non-empty, so the post-filter
applies and the result is exactly that subset. -/
theorem c2_witness :
    parse_selected_indices (pyStrip "1,2") 2 ≠ []
    ∧ select_hospitals [hospA, hospM] (parse_selected_indices (pyStrip "1,2") 2)
        = some [hospA, hospM]
    ∧ List.filter has_kaluga_address [hospA, hospM] ≠ []
    ∧ filter_hospitals_by_location queryLenina [hospA, hospM] (Except.ok "1,2")
        = List.filter has_kaluga_address [hospA, hospM] :=
  ⟨by decide, by decide, by decide,
   (c2_kaluga_postfilter_when_nonempty queryLenina [hospA, hospM] "1,2"
      [hospA, hospM] (by decide) (by decide) (by decide) (by decide)
      (by decide)).1⟩

/-! ### Claim C4 -/

/-- Claim C4, counterexample: after the forward step displays `[hospB,
hospA]` (oracle reply `2, 1`) and persists ids `[2, 1]`, back navigation
re-fetches `[hospA, hospB]` and restores `[hospA, hospB]` — the persisted
id set in the full-fetch order, NOT the displayed order, refuting "same
order" in the claim. -/
theorem c4_counterexample :
    filter_hospitals_by_location queryLenina [hospA, hospB] (Except.ok "2, 1")
      = [hospB, hospA]
    ∧ persisted_hospital_ids [hospB, hospA] = [2, 1]
    ∧ back_to_ai_hospitals_restore [hospA, hospB] [2, 1] = [hospA, hospB]
    ∧ ([hospA, hospB] : List Hospital) ≠ ([hospB, hospA] : List Hospital) := by
  decide

/-- Claim C4, amended: back navigation re-fetches the full hospital set
and intersects it with the persisted ids without any oracle input, and
reproduces exactly the previously displayed ID SET — an id is restored iff
it was displayed — but in the order of the full fetch, with duplicates
collapsed, rather than in display order. -/
theorem c4_back_nav_restores_id_set (all displayed : List Hospital) (i : Nat)
    (hsub : ∀ h ∈ displayed, h ∈ all) (hne : displayed ≠ []) :
    i ∈ persisted_hospital_ids
        (back_to_ai_hospitals_restore all (persisted_hospital_ids displayed))
      ↔ i ∈ persisted_hospital_ids displayed := by
  have hids : (displayed.map (fun h => h.id)).isEmpty = false := by
    cases displayed with
    | nil => exact absurd rfl hne
    | cons a t => rfl
  unfold persisted_hospital_ids back_to_ai_hospitals_restore
  rw [hids]
  simp only [Bool.false_eq_true, if_false, List.mem_map, List.mem_filter]
  constructor
  · rintro ⟨h, ⟨_, hcont⟩, hid⟩
    subst hid
    simpa [List.contains] using hcont
  · rintro ⟨h, hd, hid⟩
    subst hid
    refine ⟨h, ⟨hsub h hd, ?_⟩, rfl⟩
    simp only [List.contains, List.elem_eq_mem, List.mem_map, decide_eq_true_eq]
    exact ⟨h, hd, rfl⟩

/-- Claim C4, witness: at the concrete counterexample lists, id `2` is
restored exactly because it was displayed. -/
theorem c4_witness :
    (∀ h ∈ ([hospB, hospA] : List Hospital), h ∈ ([hospA, hospB] : List Hospital))
    ∧ (2 ∈ persisted_hospital_ids
          (back_to_ai_hospitals_restore [hospA, hospB]
            (persisted_hospital_ids [hospB, hospA]))
        ↔ 2 ∈ persisted_hospital_ids [hospB, hospA]) :=
  ⟨by decide,
   c4_back_nav_restores_id_set [hospA, hospB] [hospB, hospA] 2 (by decide)
     (by decide)⟩

/-! ### Claim C3 -/

/-- Membership characterization of the `SELECT DISTINCT ... JOIN ... WHERE
specialty` rows: a pair `(i, n)` appears iff some hospital row has that id
and name and at least one placement of the specialty points at it. -/
theorem mem_specialtyJoinRows (db : Database) (s i : Nat) (n : String) :
    (i, n) ∈ specialtyJoinRows db s
      ↔ ∃ h ∈ db.hospitals, h.id = i ∧ h.name = n
          ∧ ∃ p ∈ db.placements, p.hospital_id = i ∧ p.specialty_id = s := by
  unfold specialtyJoinRows
  rw [List.mem_dedup]
  simp only [List.mem_map, List.mem_filter, List.any_eq_true, Bool.and_eq_true,
    beq_iff_eq, Prod.mk.injEq]
  constructor
  · rintro ⟨h, ⟨hh, p, hp, hph, hps⟩, hid, hname⟩
    exact ⟨h, hh, hid, hname, p, hp, by rw [← hid]; exact hph, hps⟩
  · rintro ⟨h, hh, hid, hname, p, hp, hph, hps⟩
    exact ⟨h, ⟨hh, p, hp, by rw [hid]; exact hph, hps⟩, hid, hname⟩

/-- Claim C3, counterexample: on a concrete database, the items returned
by `get_hospitals` carry only the keys `id` and `name` — there is no
`address` field, so the claimed `{id, name, address}` record shape is not
produced. -/
theorem c3_counterexample :
    (get_hospitals dbFix (some 3)).items
      = [[("id", SqlValue.vint 1), ("name", SqlValue.vtext "А")]]
    ∧ ∀ it ∈ (get_hospitals dbFix (some 3)).items,
        "address" ∉ it.map Prod.fst := by decide

/-- Claim C3, amended: every record returned by `get_hospitals` has
exactly the fields `{id, name}` (no address), and with a non-zero
`specialty_id`, zero skip and a limit at least the result size, the
returned ids/names are exactly the hospitals having at least one
`doctor_work_placements` row of that specialty. -/
theorem c3_get_hospitals_shape_and_specialty (db : Database) (s : Nat)
    (limit : Nat) (hs0 : s ≠ 0)
    (hlim : (specialtyJoinRows db s).length ≤ limit) :
    (∀ it ∈ (get_hospitals db (some s) 0 limit).items,
      it.map Prod.fst = ["id", "name"])
    ∧ ∀ (i : Nat) (n : String),
        ([("id", SqlValue.vint i), ("name", SqlValue.vtext n)]
            ∈ (get_hospitals db (some s) 0 limit).items
          ↔ ∃ h ∈ db.hospitals, h.id = i ∧ h.name = n
              ∧ ∃ p ∈ db.placements, p.hospital_id = i ∧ p.specialty_id = s) := by
  have hitems : (get_hospitals db (some s) 0 limit).items
      = (sortByName (specialtyJoinRows db s)).map
          (fun (r : Nat × String) =>
            [("id", SqlValue.vint r.1), ("name", SqlValue.vtext r.2)]) := by
    have hlen : (sortByName (specialtyJoinRows db s)).length ≤ limit := by
      rw [length_sortByName]; exact hlim
    simp only [get_hospitals, List.drop_zero]
    rw [if_pos hs0, List.take_of_length_le hlen]
  constructor
  · intro it hit
    rw [hitems] at hit
    obtain ⟨r, _, rfl⟩ := List.mem_map.mp hit
    rfl
  · intro i n
    rw [hitems]
    simp only [List.mem_map]
    constructor
    · rintro ⟨⟨a, b⟩, hr, heq⟩
      simp only [List.cons.injEq, Prod.mk.injEq, SqlValue.vint.injEq,
        SqlValue.vtext.injEq, and_true, true_and] at heq
      obtain ⟨ha, hb⟩ := heq
      subst ha; subst hb
      rw [mem_sortByName, mem_specialtyJoinRows] at hr
      exact hr
    · intro hmem
      refine ⟨(i, n), ?_, rfl⟩
      rw [mem_sortByName, mem_specialtyJoinRows]
      exact hmem

/-- Claim C3, witness: on the concrete database `dbFix` with specialty
`3`, hospital `(1, А)` is returned exactly because it has a placement of
specialty `3`. -/
theorem c3_witness :
    (3 : Nat) ≠ 0 ∧ (specialtyJoinRows dbFix 3).length ≤ 10
    ∧ ([("id", SqlValue.vint 1), ("name", SqlValue.vtext "А")]
          ∈ (get_hospitals dbFix (some 3) 0 10).items
        ↔ ∃ h ∈ dbFix.hospitals, h.id = 1 ∧ h.name = "А"
            ∧ ∃ p ∈ dbFix.placements, p.hospital_id = 1 ∧ p.specialty_id = 3) :=
  ⟨by decide, by decide,
   (c3_get_hospitals_shape_and_specialty dbFix 3 10 (by decide) (by decide)).2
     1 "А"⟩

/-! ### Claim C7 -/

/-- Dropping leading whitespace is the identity on all-`a` strings. -/
theorem dropWhile_whitespace_replicate_a (n : Nat) :
    (List.replicate n 'a').dropWhile Char.isWhitespace = List.replicate n 'a' := by
  cases n with
  | zero => rfl
  | succ m =>
    rw [List.replicate_succ, List.dropWhile_cons]
    simp

/-- Stripping with `pyStrip` is the identity on all-`a` strings. -/
theorem pyStrip_replicate_a (n : Nat) :
    pyStrip (String.mk (List.replicate n 'a')) = String.mk (List.replicate n 'a') := by
  simp [pyStrip, dropWhile_whitespace_replicate_a, List.reverse_replicate]

/-- The stripped length of an all-`a` string of length `n` is `n`. -/
theorem length_pyStrip_replicate_a (n : Nat) :
    (pyStrip (String.mk (List.replicate n 'a'))).length = n := by
  rw [pyStrip_replicate_a]
  simp [String.length]

/-- Claim C7: the review text (the whitespace-stripped message text that
is validated and stored) is rejected at length 9 and at length 2001 — the
handler replies and returns, never calling `create_review` and leaving the
FSM in the review-writing state — and is accepted (the write is invoked
with exactly that text) at lengths 10 and 2000. -/
theorem c7_review_length_boundary (text : String) (d h : Nat) (un : String)
    (createOk : Bool) (hd : d ≠ 0) (hh : h ≠ 0) :
    ((pyStrip text).length = 9 →
      process_review text ⟨some d, some h⟩ un true createOk
        = ⟨none, ReviewFsm.waiting_for_review⟩)
    ∧ ((pyStrip text).length = 10 →
      (process_review text ⟨some d, some h⟩ un true createOk).created
        = some (d, h, un, pyStrip text))
    ∧ ((pyStrip text).length = 2000 →
      (process_review text ⟨some d, some h⟩ un true createOk).created
        = some (d, h, un, pyStrip text))
    ∧ ((pyStrip text).length = 2001 →
      process_review text ⟨some d, some h⟩ un true createOk
        = ⟨none, ReviewFsm.waiting_for_review⟩) := by
  refine ⟨?_, ?_, ?_, ?_⟩ <;> intro hlen <;> cases createOk <;>
    simp [process_review, REVIEW_MIN_LENGTH, REVIEW_MAX_LENGTH, hlen, hd, hh]

/-- Claim C7, witness: concrete all-`a` texts of lengths 9, 10, 2000 and
2001 exercise each boundary. -/
theorem c7_witness :
    (5 : Nat) ≠ 0 ∧ (6 : Nat) ≠ 0
    ∧ process_review (String.mk (List.replicate 9 'a')) ⟨some 5, some 6⟩
        "u" true true = ⟨none, ReviewFsm.waiting_for_review⟩
    ∧ (process_review (String.mk (List.replicate 10 'a')) ⟨some 5, some 6⟩
        "u" true true).created
        = some (5, 6, "u", pyStrip (String.mk (List.replicate 10 'a')))
    ∧ (process_review (String.mk (List.replicate 2000 'a')) ⟨some 5, some 6⟩
        "u" true true).created
        = some (5, 6, "u", pyStrip (String.mk (List.replicate 2000 'a')))
    ∧ process_review (String.mk (List.replicate 2001 'a')) ⟨some 5, some 6⟩
        "u" true true = ⟨none, ReviewFsm.waiting_for_review⟩ :=
  ⟨by decide, by decide,
   (c7_review_length_boundary (String.mk (List.replicate 9 'a')) 5 6 "u" true
      (by decide) (by decide)).1 (by decide),
   (c7_review_length_boundary (String.mk (List.replicate 10 'a')) 5 6 "u" true
      (by decide) (by decide)).2.1 (by decide),
   (c7_review_length_boundary (String.mk (List.replicate 2000 'a')) 5 6 "u" true
      (by decide) (by decide)).2.2.1 (length_pyStrip_replicate_a 2000),
   (c7_review_length_boundary (String.mk (List.replicate 2001 'a')) 5 6 "u" true
      (by decide) (by decide)).2.2.2 (length_pyStrip_replicate_a 2001)⟩

/-! ### Claim C8 -/

/-- Claim C8: in doctor-card display, geocoding is attempted exactly when
a geocoding credential and a real address are both present; the static-map
fetch is attempted only when geocoding was attempted and succeeded; a
geocoding failure yields the text-only card with no map attempt and no
error action; a map-fetch failure also yields the text-only card. -/
theorem c8_doctor_card_degradation (key : String) (d : Doctor)
    (geo : Except Unit Coords) (mp : Except Unit String) :
    ((show_doctor_card key (Except.ok d) geo mp).geocode_attempted
        = (!(key = "") && has_real_address d))
    ∧ ((show_doctor_card key (Except.ok d) geo mp).map_attempted = true →
        (show_doctor_card key (Except.ok d) geo mp).geocode_attempted = true
        ∧ ∃ c, geo = Except.ok c)
    ∧ (geo = Except.error () →
        show_doctor_card key (Except.ok d) geo mp
          = ⟨(!(key = "") && has_real_address d), false,
              CardAction.answerText (doctor_card_text d)⟩)
    ∧ (mp = Except.error () →
        (show_doctor_card key (Except.ok d) geo mp).action
          = CardAction.answerText (doctor_card_text d)) := by
  cases geo <;> cases mp <;>
    by_cases hk : key = "" <;> by_cases ha : has_real_address d = true <;>
      simp_all [show_doctor_card]

/-- Claim C8, witness: with a credential and a real address, a geocoding
failure renders the text-only card (geocode attempted, map not attempted,
no error), and a map-fetch failure also renders the text-only card. -/
theorem c8_witness :
    show_doctor_card "key" (Except.ok docFix) (Except.error ()) (Except.ok "img")
      = ⟨(!(("key" : String) = "") && has_real_address docFix), false,
          CardAction.answerText (doctor_card_text docFix)⟩
    ∧ (show_doctor_card "key" (Except.ok docFix) (Except.ok ⟨1, 2⟩)
        (Except.error ())).action
      = CardAction.answerText (doctor_card_text docFix) :=
  ⟨(c8_doctor_card_degradation "key" docFix (Except.error ())
      (Except.ok "img")).2.2.1 rfl,
   (c8_doctor_card_degradation "key" docFix (Except.ok ⟨1, 2⟩)
      (Except.error ())).2.2.2 rfl⟩

/-! ### Claim C9 -/

/-- Claim C9: for any hospital list longer than 50, the oracle prompt
enumerates only the first 50 hospitals, yet a reply index is accepted up
to the full list length: the reply `51` makes the filter return exactly
the hospital at (1-based) position 51, which was never shown to the
oracle. -/
theorem c9_prompt_truncation_vs_full_range (q : String) (hs : List Hospital)
    (h50 : 50 < hs.length)
    (hloc : (extract_location_info q).has_location = true) :
    addresses_list hs = addresses_list (hs.take 50)
    ∧ filter_hospitals_by_location q hs (Except.ok "51")
      = [hs.get ⟨50, h50⟩] := by
  obtain ⟨a, t, rfl⟩ : ∃ a t, hs = a :: t := by
    cases hs with
    | nil => simp at h50
    | cons a t => exact ⟨a, t, rfl⟩
  have hlt : ((50 : Int)) < ((a :: t).length : Int) := by exact_mod_cast h50
  have hget : pyGet (a :: t) (50 : Int) = some ((a :: t).get ⟨50, h50⟩) := by
    have hc : ¬ ((50 : Int) < 0) := by norm_num
    simp only [pyGet, hc, if_false]
    rw [dif_pos ⟨by norm_num, hlt⟩]
    rfl
  have hparse : parse_selected_indices (pyStrip "51") (a :: t).length
      = [(50 : Int)] := by
    have h51 : findNumbers (pyStrip "51") = [51] := rfl
    simp only [parse_selected_indices, h51, List.filterMap_cons, List.filterMap_nil]
    rw [if_pos (by omega)]
    norm_num
  have hselect : select_hospitals (a :: t) [(50 : Int)]
      = some [(a :: t).get ⟨50, h50⟩] := by
    simp only [select_hospitals, List.filter_cons, List.filter_nil,
      decide_eq_true hlt, if_true, pyGetAll, hget]
  have hlast : ∀ y : Hospital,
      (if !(List.filter has_kaluga_address [y]).isEmpty
        then List.filter has_kaluga_address [y] else [y]) = [y] := by
    intro y
    rcases hky : has_kaluga_address y <;>
      simp [List.filter_cons, List.filter_nil, hky]
  constructor
  · simp [addresses_list, List.take_take]
  · simp only [filter_hospitals_by_location, List.isEmpty_cons, hloc,
      Bool.not_true, Bool.false_eq_true, if_false, hparse, hselect]
    exact hlast _

/-- Claim C9, witness: a 51-element list (50 Kaluga hospitals then
`hospB`): the prompt enumeration equals that of the 50-element prefix,
and reply `51` returns exactly the 51st hospital. -/
theorem c9_witness :
    50 < hosp51.length
    ∧ (extract_location_info queryLenina).has_location = true
    ∧ addresses_list hosp51 = addresses_list (hosp51.take 50)
    ∧ filter_hospitals_by_location queryLenina hosp51 (Except.ok "51")
      = [hosp51.get ⟨50, by decide⟩] :=
  ⟨by decide, by decide,
   (c9_prompt_truncation_vs_full_range queryLenina hosp51 (by decide)
      (by decide)).1,
   (c9_prompt_truncation_vs_full_range queryLenina hosp51 (by decide)
      (by decide)).2⟩

end GdeDoctor
